import Mathlib

/-!
Shallow embedding of `src/torso_control.py` (Pepper VR teleoperation torso
controller).  Python floats are modelled as real numbers, quaternions and
3-D positions as four- and three-component records, the helpers from
`tf.transformations` and `math` are reproduced from their library sources,
and methods that mutate `self` are modelled as functions from the
controller state to an updated state together with the return value.
The time-bounded sampling loops are modelled by the finite list of fetch
outcomes they observe, each outcome being `some` sample or `none` for a
lookup that raises `tf.Exception`.
-/

namespace TorsoControl

/-- A quaternion `[x, y, z, w]` as used by `tf.transformations`. -/
structure Quat where
  x : ℝ
  y : ℝ
  z : ℝ
  w : ℝ

/-- A 3-D position `[x, y, z]`. -/
structure Vec3 where
  x : ℝ
  y : ℝ
  z : ℝ

/-- `math.copysign(a, b)`: the magnitude of `a` with the sign of `b`.
Real numbers have no signed zero, so `b = 0` gives `|a|`, matching
`math.copysign(a, +0.0)`. -/
noncomputable def copysign (a b : ℝ) : ℝ :=
  if b < 0 then -|a| else |a|

/-- `math.atan2(y, x)`, modelled as the argument of the complex number
`x + y*i` (range `(-pi, pi]`, `atan2 0 0 = 0`, matching the C library on
unsigned zeros). -/
noncomputable def atan2 (y x : ℝ) : ℝ :=
  Complex.arg ⟨x, y⟩

/-- `numpy.dot(q, q)` for a quaternion, written `nq` in
`tf.transformations.quaternion_matrix`. -/
noncomputable def Quat.normSq (q : Quat) : ℝ :=
  q.x * q.x + q.y * q.y + q.z * q.z + q.w * q.w

/-- Entry `[0, 2]` of `tf.transformations.quaternion_matrix(q)`: after the
scaling `q *= sqrt(2/nq)` the entry is `q[0]*q[2] + q[1]*q[3]`, i.e.
`2*(x*z + y*w)/nq`; the degenerate `nq < eps` branch returns the identity
matrix, whose `[0, 2]` entry is `0`. -/
noncomputable def quaternion_matrix_02 (q : Quat) : ℝ :=
  if q.normSq = 0 then 0 else 2 * (q.x * q.z + q.y * q.w) / q.normSq

/-- Entry `[1, 2]` of `tf.transformations.quaternion_matrix(q)`:
`q[1]*q[2] - q[0]*q[3]`, i.e. `2*(y*z - x*w)/nq`, and `0` in the
degenerate branch. -/
noncomputable def quaternion_matrix_12 (q : Quat) : ℝ :=
  if q.normSq = 0 then 0 else 2 * (q.y * q.z - q.x * q.w) / q.normSq

/-- `tf.transformations.quaternion_inverse(q)`: negate the vector part and
divide by `dot(q, q)`. -/
noncomputable def quaternion_inverse (q : Quat) : Quat :=
  ⟨-q.x / q.normSq, -q.y / q.normSq, -q.z / q.normSq, q.w / q.normSq⟩

/-- `tf.transformations.quaternion_multiply(q1, q0)`. -/
noncomputable def quaternion_multiply (q1 q0 : Quat) : Quat :=
  ⟨q1.x * q0.w + q1.y * q0.z - q1.z * q0.y + q1.w * q0.x,
   -q1.x * q0.z + q1.y * q0.w + q1.z * q0.x + q1.w * q0.y,
   q1.x * q0.y - q1.y * q0.x + q1.z * q0.w + q1.w * q0.z,
   -q1.x * q0.x - q1.y * q0.y - q1.z * q0.z + q1.w * q0.w⟩

/-- `tf.transformations.unit_vector` applied to a quaternion: divide each
component by the Euclidean norm. -/
noncomputable def unit_vector (q : Quat) : Quat :=
  ⟨q.x / Real.sqrt q.normSq, q.y / Real.sqrt q.normSq,
   q.z / Real.sqrt q.normSq, q.w / Real.sqrt q.normSq⟩

/-- Componentwise scaling of a quaternion. -/
noncomputable def Quat.smul (c : ℝ) (q : Quat) : Quat :=
  ⟨c * q.x, c * q.y, c * q.z, c * q.w⟩

/-- Componentwise sum of quaternions. -/
noncomputable def Quat.addQ (a b : Quat) : Quat :=
  ⟨a.x + b.x, a.y + b.y, a.z + b.z, a.w + b.w⟩

/-- Dot product of quaternions. -/
noncomputable def Quat.dot (a b : Quat) : ℝ :=
  a.x * b.x + a.y * b.y + a.z * b.z + a.w * b.w

/-- `tf.transformations.quaternion_slerp(quat0, quat1, fraction)` with
`spin = 0` and `shortestpath = True`; the float-epsilon guards
`abs(abs(d) - 1) < eps` and `abs(angle) < eps` are modelled as exact
comparisons with `0`. -/
noncomputable def quaternion_slerp (quat0 quat1 : Quat) (fraction : ℝ) : Quat :=
  let q0 := unit_vector quat0
  let q1 := unit_vector quat1
  if fraction = 0 then q0
  else if fraction = 1 then q1
  else
    let d := q0.dot q1
    if |(|d| - 1)| = 0 then q0
    else
      let d2 := if d < 0 then -d else d
      let q1b := if d < 0 then Quat.smul (-1) q1 else q1
      let angle := Real.arccos d2
      if |angle| = 0 then q0
      else
        Quat.addQ (Quat.smul (Real.sin ((1 - fraction) * angle) * (1 / Real.sin angle)) q0)
          (Quat.smul (Real.sin (fraction * angle) * (1 / Real.sin angle)) q1b)

/-- The mutable fields of the `TorsoControl` node that the embedded
methods read or write: the two joystick scratch variables, the stored
reference orientation, and the configuration parameters. -/
structure TorsoState where
  joystick_x : ℝ
  joystick_y : ℝ
  joystick_quaternion : Quat
  deadband_x : ℝ
  deadband_y : ℝ
  deadband_angle : ℝ
  velocity_x_max : ℝ
  velocity_y_max : ℝ
  velocity_angular_max : ℝ
  x_max_length : ℝ
  y_max_length : ℝ
  max_rotation : ℝ

/-- Saturation of a joystick value: `v = min(v, sat); v = max(v, -sat)`
(lines 234-235, 249-250 and 294-295 of `torso_control.py`). -/
noncomputable def clampSat (v sat : ℝ) : ℝ :=
  max (min v sat) (-sat)

/-- The shift-and-normalize part of the inlined deadband block: shift the
clamped value toward zero by `copysign(deadband, value)` and divide by
`saturation - deadband` (lines 238-241, 253-256 and 298-301). -/
noncomputable def deadbandNorm (raw deadband saturation : ℝ) : ℝ :=
  (clampSat raw saturation - copysign deadband (clampSat raw saturation)) /
    (saturation - deadband)

/-- One full inlined deadband block as it appears three times in the
source: if `|raw| > deadband` produce the normalized scratch value and the
scaled velocity `max_output * normalized`; otherwise the scratch variable
keeps the raw value and the velocity stays at its initialization `0`. -/
noncomputable def deadbandStep (raw deadband saturation max_output : ℝ) : ℝ × ℝ :=
  if |raw| > deadband then
    (deadbandNorm raw deadband saturation,
     max_output * deadbandNorm raw deadband saturation)
  else (raw, 0)

/-- The deadband-then-rescale-then-saturate transform (the spec's
`DeadbandScaler.scale`): the velocity component of `deadbandStep`. -/
noncomputable def deadbandScale (raw deadband saturation max_output : ℝ) : ℝ :=
  (deadbandStep raw deadband saturation max_output).2

/-- `TorsoControl.calculateLinearVelocity` (lines 199-261): extract the X
and Y tilt components from columns `[0,2]` and `[1,2]` of the rotation
matrix of the base-link quaternion, store them in the `joystick_x` and
`joystick_y` scratch fields (further overwritten by the deadband blocks),
and return the pair `(velocity_x, velocity_y)`. -/
noncomputable def calculateLinearVelocity (s : TorsoState) (base_link_quaternion : Quat) :
    TorsoState × ℝ × ℝ :=
  let jx := quaternion_matrix_02 base_link_quaternion
  let jy := quaternion_matrix_12 base_link_quaternion
  let px := deadbandStep jx s.deadband_x s.x_max_length s.velocity_x_max
  let py := deadbandStep jy s.deadband_y s.y_max_length s.velocity_y_max
  ({ s with joystick_x := px.1, joystick_y := py.1 }, px.2, py.2)

/-- The raw shoulder angle of `TorsoControl.calculateAngularVelocity`
(lines 287-290): `atan2(l.y - r.y, l.x - r.x) - pi/2`. -/
noncomputable def shoulderTheta (l_shoulder_position r_shoulder_position : Vec3) : ℝ :=
  atan2 (l_shoulder_position.y - r_shoulder_position.y)
    (l_shoulder_position.x - r_shoulder_position.x) - Real.pi / 2

/-- `TorsoControl.calculateAngularVelocity` (lines 263-306): the shoulder
angle pushed through the same deadband block with the angular
configuration; the method only reads `self`, so the state is returned
unchanged. -/
noncomputable def calculateAngularVelocity (s : TorsoState)
    (l_shoulder_position r_shoulder_position : Vec3) : TorsoState × ℝ :=
  (s, (deadbandStep (shoulderTheta l_shoulder_position r_shoulder_position)
        s.deadband_angle s.max_rotation s.velocity_angular_max).2)

/-- The outcome of the three `tf` lookups attempted during one call of
`TorsoControl.getTransforms`: the base-link transform (position and
rotation) and the two shoulder positions, each `none` when the lookup
raises `tf.Exception`. -/
structure LookupEnv where
  base_link_tf : Option (Vec3 × Quat)
  l_shoulder_tf : Option Vec3
  r_shoulder_tf : Option Vec3

/-- `TorsoControl.getTransforms` (lines 143-197): on any lookup failure it
returns the triple `None, None, None` (modelled as `none`); on success it
returns the base-link orientation expressed in the joystick frame,
`quaternion_multiply(quaternion_inverse(joystick_quaternion), rotation)`,
together with both shoulder positions. -/
noncomputable def getTransforms (s : TorsoState) (env : LookupEnv) :
    Option (Quat × Vec3 × Vec3) :=
  match env.base_link_tf, env.l_shoulder_tf, env.r_shoulder_tf with
  | some base, some l, some r =>
      some (quaternion_multiply (quaternion_inverse s.joystick_quaternion) base.2, l, r)
  | _, _, _ => none

/-- The three fields of the published `geometry_msgs/Twist` that the node
ever writes. -/
structure Twist3 where
  linear_x : ℝ
  linear_y : ℝ
  angular_z : ℝ

/-- One iteration of the `while` loop in `TorsoControl.spin` (lines
126-141): if `getTransforms` failed, the command message is set to zeros,
otherwise it is filled from the two velocity calculations; the message is
then published and the loop proceeds. -/
noncomputable def spinCycle (s : TorsoState) (env : LookupEnv) : TorsoState × Twist3 :=
  match getTransforms s env with
  | none => (s, ⟨0, 0, 0⟩)
  | some (base_link, l_shoulder, r_shoulder) =>
      let lin := calculateLinearVelocity s base_link
      let ang := calculateAngularVelocity lin.1 l_shoulder r_shoulder
      (ang.1, ⟨lin.2.1, lin.2.2, ang.2⟩)

/-- The `while not rospy.is_shutdown()` loop of `TorsoControl.spin`,
driven by the finite list of lookup outcomes it observes; the result is
the list of published commands, one per cycle. -/
noncomputable def spinLoop : TorsoState → List LookupEnv → List Twist3
  | _, [] => []
  | s, env :: rest => (spinCycle s env).2 :: spinLoop (spinCycle s env).1 rest

/-- The sampling loop of `TorsoControl.calibrateJoystickPose` (lines
325-333), after the first sample has been stored: given the current
stored quaternion and the sample count so far, each further successful
fetch replaces the stored quaternion by
`quaternion_slerp(stored, new, 1/count)` with the incremented count, and a
failed fetch aborts with the exception handler returning `False` while the
stored quaternion keeps its current (partial) value. -/
noncomputable def calibrateLoop : Quat → ℕ → List (Option Quat) → Quat × Bool
  | q, _, [] => (q, true)
  | q, _, none :: _ => (q, false)
  | q, count, some new_quaternion :: rest =>
      calibrateLoop (quaternion_slerp q new_quaternion (1 / ((count : ℝ) + 1)))
        (count + 1) rest

/-- `TorsoControl.calibrateJoystickPose` (lines 308-341): the first fetch
is assigned directly to `self.joystick_quaternion` (line 322); if it
raises, the handler returns `False` with the state untouched.  The
remaining fetches run through `calibrateLoop`, and whatever quaternion
that loop ends with — the full average on success, the partial average on
failure — is the stored `joystick_quaternion`. -/
noncomputable def calibrateJoystickPose (s : TorsoState) (first_fetch : Option Quat)
    (later_fetches : List (Option Quat)) : TorsoState × Bool :=
  match first_fetch with
  | none => (s, false)
  | some q1 =>
      let result := calibrateLoop q1 1 later_fetches
      ({ s with joystick_quaternion := result.1 }, result.2)

/-- Modelled from the spec (section 4.2, CalibrationAverager), for the
refinement comparison of claim C7: the incremental spherical average, with
`incrementalSlerpAvgFrom avg k samples` folding the samples numbered
`k+1, k+2, ...` into the average `avg` of the first `k` samples by
`avg_k = slerp(avg_(k-1), sample_k, 1/k)`. -/
noncomputable def incrementalSlerpAvgFrom : Quat → ℕ → List Quat → Quat
  | avg, _, [] => avg
  | avg, k, sample :: rest =>
      incrementalSlerpAvgFrom (quaternion_slerp avg sample (1 / ((k : ℝ) + 1)))
        (k + 1) rest

/-- Modelled from the spec (section 4.2): the incremental spherical
average of a nonempty sample sequence, `avg_1 = sample_1`. -/
noncomputable def incrementalSlerpAvg (sample1 : Quat) (rest : List Quat) : Quat :=
  incrementalSlerpAvgFrom sample1 1 rest

/-- A sample controller state with the node's default configuration
(deadbands `0.2`, `0.2`, `pi/8`; velocity maxima `0.2`, `0.2`, `pi/4`;
maximum rotation `pi/4`) and the initial reference quaternion
`[0, 0, 0, 1]`; the linear saturation bound `cos(3*pi/8)` is replaced by
the nearby value `2/5`. -/
noncomputable def initState : TorsoState where
  joystick_x := 0
  joystick_y := 0
  joystick_quaternion := ⟨0, 0, 0, 1⟩
  deadband_x := 1 / 5
  deadband_y := 1 / 5
  deadband_angle := Real.pi / 8
  velocity_x_max := 1 / 5
  velocity_y_max := 1 / 5
  velocity_angular_max := Real.pi / 4
  x_max_length := 2 / 5
  y_max_length := 2 / 5
  max_rotation := Real.pi / 4

/-- `initState` with a nonzero `joystick_x` scratch value, as left behind
by some earlier control cycle. -/
noncomputable def scratchState : TorsoState :=
  { initState with joystick_x := 1 }

/-! Helper lemmas about the deadband transform. -/

theorem copysign_of_pos (a b : ℝ) (h : 0 < b) : copysign a b = |a| := by
  unfold copysign
  rw [if_neg (not_lt.mpr h.le)]

theorem copysign_of_neg (a b : ℝ) (h : b < 0) : copysign a b = -|a| := by
  unfold copysign
  rw [if_pos h]

theorem clampSat_pos (v sat : ℝ) (hv : 0 < v) (hs : 0 < sat) : 0 < clampSat v sat :=
  lt_of_lt_of_le (lt_min hv hs) (le_max_left _ _)

theorem clampSat_neg (v sat : ℝ) (hv : v < 0) (hs : 0 < sat) : clampSat v sat < 0 := by
  unfold clampSat
  rw [min_eq_left (by linarith)]
  exact max_lt hv (by linarith)

theorem clampSat_le (v sat : ℝ) (h : 0 ≤ sat) : clampSat v sat ≤ sat :=
  max_le (min_le_right _ _) (by linarith)

theorem neg_le_clampSat (v sat : ℝ) : -sat ≤ clampSat v sat :=
  le_max_right _ _

theorem clampSat_neg_arg (v sat : ℝ) (h : 0 ≤ sat) :
    clampSat (-v) sat = -clampSat v sat := by
  unfold clampSat
  rcases le_total v (-sat) with h1 | h1
  · rw [min_eq_right (by linarith), max_eq_left (by linarith),
      min_eq_left (by linarith), max_eq_right h1, neg_neg]
  · rcases le_total v sat with h2 | h2
    · rw [min_eq_left (by linarith), max_eq_left (by linarith),
        min_eq_left h2, max_eq_left (by linarith)]
    · rw [min_eq_left (by linarith), max_eq_right (by linarith),
        min_eq_right h2, max_eq_left (by linarith)]

theorem copysign_neg_arg (a c : ℝ) (hc : c ≠ 0) :
    copysign a (-c) = -copysign a c := by
  unfold copysign
  rcases lt_trichotomy c 0 with h | h | h
  · rw [if_neg (by linarith), if_pos h, neg_neg]
  · exact absurd h hc
  · rw [if_pos (by linarith), if_neg (by linarith)]

theorem deadbandScale_of_abs_le (raw deadband saturation max_output : ℝ)
    (h : |raw| ≤ deadband) : deadbandScale raw deadband saturation max_output = 0 := by
  unfold deadbandScale deadbandStep
  rw [if_neg (not_lt.mpr h)]

theorem deadbandScale_saturated (raw deadband saturation max_output : ℝ)
    (h0 : 0 ≤ deadband) (h1 : deadband < saturation) (h2 : saturation ≤ |raw|) :
    deadbandScale raw deadband saturation max_output =
      Real.sign raw * max_output := by
  have hs : 0 < saturation := lt_of_le_of_lt h0 h1
  have hne : saturation - deadband ≠ 0 := by linarith
  have hbr : |raw| > deadband := lt_of_lt_of_le h1 h2
  unfold deadbandScale deadbandStep deadbandNorm clampSat
  rw [if_pos hbr]
  rcases le_abs.mp h2 with hr | hr
  · have hraw : 0 < raw := lt_of_lt_of_le hs hr
    rw [min_eq_right hr, max_eq_left (by linarith),
      copysign_of_pos _ _ hs, abs_of_nonneg h0, div_self hne,
      Real.sign_of_pos hraw]
    ring
  · have hraw : raw < 0 := by nlinarith
    rw [min_eq_left (by linarith), max_eq_right (by linarith),
      copysign_of_neg _ _ (by linarith), abs_of_nonneg h0,
      Real.sign_of_neg hraw,
      show (-saturation - -deadband) / (saturation - deadband) = -1 by
        rw [div_eq_iff hne]; ring]
    ring

theorem deadbandScale_neg_arg (raw deadband saturation max_output : ℝ)
    (h0 : 0 ≤ deadband) (h1 : deadband < saturation) :
    deadbandScale (-raw) deadband saturation max_output =
      -deadbandScale raw deadband saturation max_output := by
  have hs : 0 < saturation := lt_of_le_of_lt h0 h1
  unfold deadbandScale deadbandStep
  by_cases hb : |raw| > deadband
  · have hb' : |-raw| > deadband := by rwa [abs_neg]
    rw [if_pos hb, if_pos hb']
    have hraw : raw ≠ 0 := by
      intro h
      rw [h, abs_zero] at hb
      linarith
    have hc : clampSat raw saturation ≠ 0 := by
      rcases hraw.lt_or_lt with h | h
      · exact ne_of_lt (clampSat_neg _ _ h hs)
      · exact ne_of_gt (clampSat_pos _ _ h hs)
    have hnorm : deadbandNorm (-raw) deadband saturation =
        -deadbandNorm raw deadband saturation := by
      unfold deadbandNorm
      rw [clampSat_neg_arg _ _ hs.le, copysign_neg_arg _ _ hc]
      ring
    rw [hnorm]
    ring
  · have hb' : ¬ |-raw| > deadband := by rwa [abs_neg]
    rw [if_neg hb, if_neg hb']
    simp

theorem abs_deadbandScale_le (raw deadband saturation max_output : ℝ)
    (h0 : 0 ≤ deadband) (h1 : deadband < saturation) (h2 : 0 ≤ max_output) :
    |deadbandScale raw deadband saturation max_output| ≤ max_output := by
  have hs : 0 < saturation := lt_of_le_of_lt h0 h1
  unfold deadbandScale deadbandStep
  by_cases hb : |raw| > deadband
  · rw [if_pos hb]
    have habs : |deadbandNorm raw deadband saturation| ≤ 1 := by
      unfold deadbandNorm
      rw [abs_div, abs_of_pos (by linarith : (0:ℝ) < saturation - deadband),
        div_le_one (by linarith : (0:ℝ) < saturation - deadband)]
      rcases lt_abs.mp hb with hr | hr
      · have hcpos : deadband < clampSat raw saturation := by
          unfold clampSat
          exact lt_of_lt_of_le (lt_min hr h1) (le_max_left _ _)
        rw [copysign_of_pos _ _ (by linarith), abs_of_nonneg h0,
          abs_of_nonneg (by linarith)]
        have := clampSat_le raw saturation hs.le
        linarith
      · have hcneg : clampSat raw saturation < -deadband := by
          unfold clampSat
          rw [min_eq_left (by linarith)]
          exact max_lt (by linarith) (by linarith)
        rw [copysign_of_neg _ _ (by linarith), abs_of_nonneg h0,
          abs_of_nonpos (by linarith)]
        have := neg_le_clampSat raw saturation
        linarith
    calc |max_output * deadbandNorm raw deadband saturation|
        = max_output * |deadbandNorm raw deadband saturation| := by
          rw [abs_mul, abs_of_nonneg h2]
      _ ≤ max_output * 1 := by
          exact mul_le_mul_of_nonneg_left habs h2
      _ = max_output := mul_one _
  · rw [if_neg hb]
    simpa using h2

/-! Helper lemmas about the calibration and control loops. -/

theorem calibrateLoop_map_some (samples : List Quat) :
    ∀ (avg : Quat) (k : ℕ),
      calibrateLoop avg k (samples.map some) =
        (incrementalSlerpAvgFrom avg k samples, true) := by
  induction samples with
  | nil => intro avg k; rfl
  | cons sample rest ih =>
      intro avg k
      simp only [List.map_cons, calibrateLoop, incrementalSlerpAvgFrom]
      exact ih _ _

theorem calibrateLoop_map_some_append_none (samples : List Quat) :
    ∀ (avg : Quat) (k : ℕ) (tail : List (Option Quat)),
      calibrateLoop avg k (samples.map some ++ none :: tail) =
        (incrementalSlerpAvgFrom avg k samples, false) := by
  induction samples with
  | nil => intro avg k tail; rfl
  | cons sample rest ih =>
      intro avg k tail
      simp only [List.map_cons, List.cons_append, calibrateLoop,
        incrementalSlerpAvgFrom]
      exact ih _ _ _

theorem getTransforms_none_mono (s s' : TorsoState) (env : LookupEnv)
    (h : getTransforms s env = none) : getTransforms s' env = none := by
  unfold getTransforms at h ⊢
  rcases env with ⟨base, l, r⟩
  rcases base with _ | base <;> rcases l with _ | l <;> rcases r with _ | r <;>
    simp_all

theorem spinLoop_length (envs : List LookupEnv) :
    ∀ s : TorsoState, (spinLoop s envs).length = envs.length := by
  induction envs with
  | nil => intro s; rfl
  | cons env rest ih =>
      intro s
      simp only [spinLoop, List.length_cons, ih]

theorem spinLoop_failure_cycle (envs : List LookupEnv) :
    ∀ (s : TorsoState) (i : ℕ) (env : LookupEnv),
      envs[i]? = some env → (∀ s', getTransforms s' env = none) →
      (spinLoop s envs)[i]? = some ⟨0, 0, 0⟩ := by
  induction envs with
  | nil => intro s i env h1 _; simp at h1
  | cons e rest ih =>
      intro s i env h1 h2
      cases i with
      | zero =>
          simp only [List.getElem?_cons_zero, Option.some.injEq] at h1
          subst h1
          simp only [spinLoop, List.getElem?_cons_zero, Option.some.injEq]
          unfold spinCycle
          rw [h2 s]
      | succ i =>
          simp only [List.getElem?_cons_succ] at h1
          simp only [spinLoop, List.getElem?_cons_succ]
          exact ih _ _ _ h1 h2

theorem atan2_one_one : atan2 1 1 = Real.pi / 4 := by
  unfold atan2
  have hre : (0:ℝ) ≤ (⟨1, 1⟩ : ℂ).re := by
    show (0:ℝ) ≤ 1
    norm_num
  rw [Complex.arg_of_re_nonneg hre]
  have habs : Complex.abs ⟨1, 1⟩ = Real.sqrt 2 := by
    rw [Complex.abs_apply, Complex.normSq_mk]
    norm_num
  have him : (⟨1, 1⟩ : ℂ).im = 1 := rfl
  rw [him, habs]
  have hs2 : (1 : ℝ) / Real.sqrt 2 = Real.sqrt 2 / 2 := by
    rw [div_eq_div_iff (ne_of_gt (Real.sqrt_pos.mpr (by norm_num : (0:ℝ) < 2)))
      (by norm_num : (2:ℝ) ≠ 0), one_mul, Real.mul_self_sqrt (by norm_num)]
  rw [hs2, ← Real.sin_pi_div_four]
  exact Real.arcsin_sin (by linarith [Real.pi_pos]) (by linarith [Real.pi_pos])

/-! Claims. -/

/-- C1 (counterexample): a calibration run whose first sample fetch
succeeds and whose second fetch fails returns failure, yet the stored
`joystick_quaternion` has been overwritten with the first sample — the
partial calibration result is retained, contradicting the claim that on
any failed fetch the stored reference orientation is unchanged. -/
theorem c1_counterexample :
    (calibrateJoystickPose initState (some ⟨1, 0, 0, 0⟩) [none]).2 = false ∧
    (calibrateJoystickPose initState (some ⟨1, 0, 0, 0⟩) [none]).1.joystick_quaternion ≠
      initState.joystick_quaternion := by
  refine ⟨rfl, fun h => ?_⟩
  have hx : (calibrateJoystickPose initState (some ⟨1, 0, 0, 0⟩)
      [none]).1.joystick_quaternion.x = initState.joystick_quaternion.x := by
    rw [h]
  have h10 : (1:ℝ) = 0 := hx
  norm_num at h10

/-- C1 (amended): if any sample fetch fails before the calibration window
completes, `calibrateJoystickPose` returns a failure; the stored
`joystick_quaternion` is unchanged only when the FIRST fetch fails — when
a later fetch fails it retains the incremental slerp average of the
samples gathered before the failure (a partial calibration result). -/
theorem c1_calibration_failure_behavior :
    (∀ (s : TorsoState) (later_fetches : List (Option Quat)),
        calibrateJoystickPose s none later_fetches = (s, false)) ∧
    (∀ (s : TorsoState) (q1 : Quat) (samples : List Quat)
        (tail : List (Option Quat)),
        calibrateJoystickPose s (some q1) (samples.map some ++ none :: tail) =
          ({ s with joystick_quaternion := incrementalSlerpAvg q1 samples },
            false)) := by
  refine ⟨fun s later_fetches => rfl, fun s q1 samples tail => ?_⟩
  simp only [calibrateJoystickPose, incrementalSlerpAvg]
  rw [calibrateLoop_map_some_append_none]

/-- C2: in every control cycle whose `getTransforms` result is a failure,
the loop publishes the command `(0, 0, 0)`, and the loop goes on to
process every remaining cycle (one published command per observed cycle,
so a failing cycle never terminates the loop). -/
theorem c2_pose_failure_zero_command (s : TorsoState) (envs : List LookupEnv)
    (i : ℕ) (env : LookupEnv) (h1 : envs[i]? = some env)
    (h2 : getTransforms s env = none) :
    (spinLoop s envs).length = envs.length ∧
    (spinLoop s envs)[i]? = some ⟨0, 0, 0⟩ :=
  ⟨spinLoop_length envs s,
   spinLoop_failure_cycle envs s i env h1
     (fun s' => getTransforms_none_mono s s' env h2)⟩

theorem c2_witness :
    (([⟨none, none, none⟩] : List LookupEnv)[0]? = some ⟨none, none, none⟩ ∧
      getTransforms initState ⟨none, none, none⟩ = none) ∧
    ((spinLoop initState [⟨none, none, none⟩]).length =
        [(⟨none, none, none⟩ : LookupEnv)].length ∧
      (spinLoop initState [⟨none, none, none⟩])[0]? = some ⟨0, 0, 0⟩) :=
  ⟨⟨rfl, rfl⟩,
   c2_pose_failure_zero_command initState [⟨none, none, none⟩] 0
     ⟨none, none, none⟩ rfl rfl⟩

/-- C3 (counterexample): `calculateLinearVelocity` is not side-effect-free
on the controller state: called on a state whose `joystick_x` scratch
field is `1` with the identity quaternion (tilt `0`), it overwrites
`joystick_x` with `0`. -/
theorem c3_counterexample :
    (calculateLinearVelocity scratchState ⟨0, 0, 0, 1⟩).1.joystick_x ≠
      scratchState.joystick_x := by
  have hm : quaternion_matrix_02 ⟨0, 0, 0, 1⟩ = 0 := by
    unfold quaternion_matrix_02 Quat.normSq
    norm_num
  have hc : ¬ |(0:ℝ)| > scratchState.deadband_x := by
    have hd : scratchState.deadband_x = 1 / 5 := rfl
    rw [hd]
    norm_num
  have hstep : deadbandStep 0 scratchState.deadband_x scratchState.x_max_length
      scratchState.velocity_x_max = (0, 0) := by
    unfold deadbandStep
    rw [if_neg hc]
  have hx : (calculateLinearVelocity scratchState ⟨0, 0, 0, 1⟩).1.joystick_x = 0 := by
    show (deadbandStep (quaternion_matrix_02 ⟨0, 0, 0, 1⟩) scratchState.deadband_x
      scratchState.x_max_length scratchState.velocity_x_max).1 = 0
    rw [hm, hstep]
  have hrhs : scratchState.joystick_x = 1 := rfl
  rw [hx, hrhs]
  norm_num

/-- C3 (amended): the deadband-then-rescale-then-saturate computations are
deterministic and touch no state other than the scratch variables: for
every state and inputs, `calculateLinearVelocity` returns the state with
only `joystick_x` and `joystick_y` replaced, and its velocities are the
pure function `deadbandScale` of the input tilt and the configuration
fields; `calculateAngularVelocity` returns the state unchanged with its
velocity the same pure function of the shoulder angle. -/
theorem c3_state_effect :
    ∀ (s : TorsoState) (q : Quat) (l r : Vec3),
      calculateLinearVelocity s q =
        ({ s with
            joystick_x := (deadbandStep (quaternion_matrix_02 q) s.deadband_x
              s.x_max_length s.velocity_x_max).1,
            joystick_y := (deadbandStep (quaternion_matrix_12 q) s.deadband_y
              s.y_max_length s.velocity_y_max).1 },
          deadbandScale (quaternion_matrix_02 q) s.deadband_x s.x_max_length
            s.velocity_x_max,
          deadbandScale (quaternion_matrix_12 q) s.deadband_y s.y_max_length
            s.velocity_y_max) ∧
      calculateAngularVelocity s l r =
        (s, deadbandScale (shoulderTheta l r) s.deadband_angle s.max_rotation
          s.velocity_angular_max) :=
  fun _ _ _ _ => ⟨rfl, rfl⟩

/-- C7: on a calibration window in which every fetch succeeds,
`calibrateJoystickPose` stores and reports success with exactly the
incremental rule `avg_1 = sample_1`,
`avg_k = slerp(avg_(k-1), sample_k, 1/k)`, i.e. the spec-side
`incrementalSlerpAvg` of the sample sequence. -/
theorem c7_incremental_slerp_average :
    ∀ (s : TorsoState) (q1 : Quat) (samples : List Quat),
      calibrateJoystickPose s (some q1) (samples.map some) =
        ({ s with joystick_quaternion := incrementalSlerpAvg q1 samples },
          true) := by
  intro s q1 samples
  simp only [calibrateJoystickPose, incrementalSlerpAvg]
  rw [calibrateLoop_map_some]

/-- C4: for every raw input within the deadband (`|raw| <= deadband`) the
deadband-scale transform returns exactly `0`, and accordingly each of the
three axis computations returns `0` whenever its raw value lies within its
configured deadband (`deadband_x`, `deadband_y`, `deadband_angle`). -/
theorem c4_deadband_zero :
    (∀ raw deadband saturation max_output : ℝ, |raw| ≤ deadband →
        deadbandScale raw deadband saturation max_output = 0) ∧
    (∀ (s : TorsoState) (q : Quat), |quaternion_matrix_02 q| ≤ s.deadband_x →
        (calculateLinearVelocity s q).2.1 = 0) ∧
    (∀ (s : TorsoState) (q : Quat), |quaternion_matrix_12 q| ≤ s.deadband_y →
        (calculateLinearVelocity s q).2.2 = 0) ∧
    (∀ (s : TorsoState) (l r : Vec3), |shoulderTheta l r| ≤ s.deadband_angle →
        (calculateAngularVelocity s l r).2 = 0) :=
  ⟨fun raw deadband saturation max_output h =>
      deadbandScale_of_abs_le raw deadband saturation max_output h,
   fun _ _ h => deadbandScale_of_abs_le _ _ _ _ h,
   fun _ _ h => deadbandScale_of_abs_le _ _ _ _ h,
   fun _ _ _ h => deadbandScale_of_abs_le _ _ _ _ h⟩

theorem c4_witness :
    |(1/10 : ℝ)| ≤ 1/5 ∧ deadbandScale (1/10) (1/5) (2/5) (1/5) = 0 :=
  ⟨by rw [abs_of_nonneg (by norm_num : (0:ℝ) ≤ 1/10)]; norm_num,
   c4_deadband_zero.1 (1/10) (1/5) (2/5) (1/5)
     (by rw [abs_of_nonneg (by norm_num : (0:ℝ) ≤ 1/10)]; norm_num)⟩

/-- C5: under the configuration invariant `0 <= deadband < saturation`,
every raw input at or beyond the saturation bound produces
`sign(raw) * max_output`; in particular its absolute value equals
`max_output` (for a nonnegative configured maximum) and its sign matches
the sign of `raw`. -/
theorem c5_saturation (raw deadband saturation max_output : ℝ)
    (h0 : 0 ≤ deadband) (h1 : deadband < saturation) (h2 : saturation ≤ |raw|) :
    deadbandScale raw deadband saturation max_output =
      Real.sign raw * max_output ∧
    (0 ≤ max_output →
      |deadbandScale raw deadband saturation max_output| = max_output) := by
  have hmain := deadbandScale_saturated raw deadband saturation max_output h0 h1 h2
  refine ⟨hmain, fun hmo => ?_⟩
  rw [hmain, abs_mul, abs_of_nonneg hmo]
  have hraw : raw ≠ 0 := by
    intro h
    rw [h, abs_zero] at h2
    linarith
  rcases hraw.lt_or_lt with h | h
  · rw [Real.sign_of_neg h]
    norm_num
  · rw [Real.sign_of_pos h]
    norm_num

theorem c5_witness :
    ((0:ℝ) ≤ 0 ∧ (0:ℝ) < 1/2 ∧ (1/2 : ℝ) ≤ |(1:ℝ)|) ∧
    (deadbandScale 1 0 (1/2) (1/5) = Real.sign 1 * (1/5) ∧
      ((0:ℝ) ≤ 1/5 → |deadbandScale 1 0 (1/2) (1/5)| = 1/5)) :=
  ⟨⟨by norm_num, by norm_num, by norm_num⟩,
   c5_saturation 1 0 (1/2) (1/5) (by norm_num) (by norm_num) (by norm_num)⟩

/-- C6: under the configuration invariant (each deadband nonnegative and
strictly below its saturation bound, each velocity maximum nonnegative),
every input orientation and every pair of shoulder positions yield a
command with `|velocity_x| <= velocity_x_max`,
`|velocity_y| <= velocity_y_max` and
`|velocity_angular| <= velocity_angular_max`. -/
theorem c6_velocity_bounds (s : TorsoState)
    (hx0 : 0 ≤ s.deadband_x) (hx1 : s.deadband_x < s.x_max_length)
    (hx2 : 0 ≤ s.velocity_x_max)
    (hy0 : 0 ≤ s.deadband_y) (hy1 : s.deadband_y < s.y_max_length)
    (hy2 : 0 ≤ s.velocity_y_max)
    (ha0 : 0 ≤ s.deadband_angle) (ha1 : s.deadband_angle < s.max_rotation)
    (ha2 : 0 ≤ s.velocity_angular_max) :
    ∀ (q : Quat) (l r : Vec3),
      |(calculateLinearVelocity s q).2.1| ≤ s.velocity_x_max ∧
      |(calculateLinearVelocity s q).2.2| ≤ s.velocity_y_max ∧
      |(calculateAngularVelocity s l r).2| ≤ s.velocity_angular_max := by
  intro q l r
  refine ⟨?_, ?_, ?_⟩
  · show |deadbandScale (quaternion_matrix_02 q) s.deadband_x s.x_max_length
      s.velocity_x_max| ≤ s.velocity_x_max
    exact abs_deadbandScale_le _ _ _ _ hx0 hx1 hx2
  · show |deadbandScale (quaternion_matrix_12 q) s.deadband_y s.y_max_length
      s.velocity_y_max| ≤ s.velocity_y_max
    exact abs_deadbandScale_le _ _ _ _ hy0 hy1 hy2
  · show |deadbandScale (shoulderTheta l r) s.deadband_angle s.max_rotation
      s.velocity_angular_max| ≤ s.velocity_angular_max
    exact abs_deadbandScale_le _ _ _ _ ha0 ha1 ha2

theorem c6_witness :
    ((0:ℝ) ≤ initState.deadband_x ∧
      initState.deadband_x < initState.x_max_length ∧
      (0:ℝ) ≤ initState.velocity_x_max ∧
      (0:ℝ) ≤ initState.deadband_y ∧
      initState.deadband_y < initState.y_max_length ∧
      (0:ℝ) ≤ initState.velocity_y_max ∧
      (0:ℝ) ≤ initState.deadband_angle ∧
      initState.deadband_angle < initState.max_rotation ∧
      (0:ℝ) ≤ initState.velocity_angular_max) ∧
    (|(calculateLinearVelocity initState ⟨0, 0, 0, 1⟩).2.1| ≤
        initState.velocity_x_max ∧
      |(calculateLinearVelocity initState ⟨0, 0, 0, 1⟩).2.2| ≤
        initState.velocity_y_max ∧
      |(calculateAngularVelocity initState ⟨0, 0, 0⟩ ⟨0, 0, 0⟩).2| ≤
        initState.velocity_angular_max) := by
  have hpi := Real.pi_pos
  have h1 : (0:ℝ) ≤ initState.deadband_x := by
    show (0:ℝ) ≤ 1/5
    norm_num
  have h2 : initState.deadband_x < initState.x_max_length := by
    show (1/5 : ℝ) < 2/5
    norm_num
  have h3 : (0:ℝ) ≤ initState.velocity_x_max := by
    show (0:ℝ) ≤ 1/5
    norm_num
  have h4 : (0:ℝ) ≤ initState.deadband_y := by
    show (0:ℝ) ≤ 1/5
    norm_num
  have h5 : initState.deadband_y < initState.y_max_length := by
    show (1/5 : ℝ) < 2/5
    norm_num
  have h6 : (0:ℝ) ≤ initState.velocity_y_max := by
    show (0:ℝ) ≤ 1/5
    norm_num
  have h7 : (0:ℝ) ≤ initState.deadband_angle := by
    show (0:ℝ) ≤ Real.pi / 8
    linarith
  have h8 : initState.deadband_angle < initState.max_rotation := by
    show Real.pi / 8 < Real.pi / 4
    linarith
  have h9 : (0:ℝ) ≤ initState.velocity_angular_max := by
    show (0:ℝ) ≤ Real.pi / 4
    linarith
  exact ⟨⟨h1, h2, h3, h4, h5, h6, h7, h8, h9⟩,
    c6_velocity_bounds initState h1 h2 h3 h4 h5 h6 h7 h8 h9
      ⟨0, 0, 0, 1⟩ ⟨0, 0, 0⟩ ⟨0, 0, 0⟩⟩

/-- C8: for `left_shoulder = (1,1,0)` and `right_shoulder = (0,0,0)` with
`deadband_angle = pi/8`, `max_rotation = pi/4` and
`velocity_angular_max = pi/4` (the `initState` configuration), the raw
shoulder angle is `atan2(1,1) - pi/2 = -pi/4`, which saturates, and the
returned angular velocity is exactly `-pi/4`. -/
theorem c8_shoulder_scenario :
    shoulderTheta ⟨1, 1, 0⟩ ⟨0, 0, 0⟩ = -(Real.pi / 4) ∧
    (calculateAngularVelocity initState ⟨1, 1, 0⟩ ⟨0, 0, 0⟩).2 =
      -(Real.pi / 4) := by
  have hpi := Real.pi_pos
  have htheta : shoulderTheta ⟨1, 1, 0⟩ ⟨0, 0, 0⟩ = -(Real.pi / 4) := by
    show atan2 (1 - 0) (1 - 0) - Real.pi / 2 = -(Real.pi / 4)
    rw [show (1:ℝ) - 0 = 1 by norm_num, atan2_one_one]
    ring
  refine ⟨htheta, ?_⟩
  show deadbandScale (shoulderTheta ⟨1, 1, 0⟩ ⟨0, 0, 0⟩) initState.deadband_angle
    initState.max_rotation initState.velocity_angular_max = -(Real.pi / 4)
  have e1 : initState.deadband_angle = Real.pi / 8 := rfl
  have e2 : initState.max_rotation = Real.pi / 4 := rfl
  have e3 : initState.velocity_angular_max = Real.pi / 4 := rfl
  rw [htheta, e1, e2, e3,
    deadbandScale_saturated (-(Real.pi / 4)) (Real.pi / 8) (Real.pi / 4)
      (Real.pi / 4) (by linarith) (by linarith)
      (by rw [abs_neg, abs_of_pos (by linarith : (0:ℝ) < Real.pi / 4)]),
    Real.sign_of_neg (by linarith : -(Real.pi / 4) < 0)]
  ring

/-- C9: for every symmetric configuration satisfying the `DeadbandConfig`
invariant (`0 <= deadband < saturation`), the deadband-scale transform is
an odd function of the raw input. -/
theorem c9_odd (raw deadband saturation max_output : ℝ)
    (h0 : 0 ≤ deadband) (h1 : deadband < saturation) :
    deadbandScale (-raw) deadband saturation max_output =
      -deadbandScale raw deadband saturation max_output :=
  deadbandScale_neg_arg raw deadband saturation max_output h0 h1

theorem c9_witness :
    ((0:ℝ) ≤ 0 ∧ (0:ℝ) < 1/2) ∧
    deadbandScale (-(1:ℝ)) 0 (1/2) (1/3) = -deadbandScale 1 0 (1/2) (1/3) :=
  ⟨⟨le_refl 0, by norm_num⟩,
   c9_odd 1 0 (1/2) (1/3) (by norm_num) (by norm_num)⟩

/-- C10: the angular-velocity computation depends only on the planar x/y
differences of the two shoulder positions: it is invariant under any
common 3-D translation of both shoulders and independent of both
z-components. -/
theorem c10_translation_invariance (s : TorsoState) (l r t : Vec3)
    (zl zr : ℝ) :
    calculateAngularVelocity s ⟨l.x + t.x, l.y + t.y, l.z + t.z⟩
        ⟨r.x + t.x, r.y + t.y, r.z + t.z⟩ = calculateAngularVelocity s l r ∧
    calculateAngularVelocity s ⟨l.x, l.y, zl⟩ ⟨r.x, r.y, zr⟩ =
      calculateAngularVelocity s l r := by
  have htrans : shoulderTheta ⟨l.x + t.x, l.y + t.y, l.z + t.z⟩
      ⟨r.x + t.x, r.y + t.y, r.z + t.z⟩ = shoulderTheta l r := by
    show atan2 (l.y + t.y - (r.y + t.y)) (l.x + t.x - (r.x + t.x)) -
        Real.pi / 2 =
      atan2 (l.y - r.y) (l.x - r.x) - Real.pi / 2
    rw [show l.y + t.y - (r.y + t.y) = l.y - r.y by ring,
      show l.x + t.x - (r.x + t.x) = l.x - r.x by ring]
  refine ⟨?_, rfl⟩
  unfold calculateAngularVelocity
  rw [htrans]

end TorsoControl
